import Mathlib

/-!
Verification development for the hexapod-controller firmware
(src/HexapodControllerFirmware.X/Touchscreen.h).

The firmware targets an AT90CAN64 (AVR, avr-gcc): `int` is 16 bits wide,
`U16` is a 16-bit unsigned type, `S8` a signed 8-bit type.  Consequently,
mixed `U16`/`int` arithmetic is performed in unsigned 16-bit arithmetic
(the usual arithmetic conversions promote both operands to `unsigned int`),
and assigning a wider value to an `S8` reduces it modulo 2^8 into
[-128, 127].  The embedding below keeps machine integers as `Int` with the
reductions `u16`, `toS16`, `toS8` applied exactly where the C types force
them.

Arrays are embedded as functions out of `Fin n`; a C array access with a
possibly-out-of-range index (`buttons[touchedButton]`, `buttons[oldButton]`)
is embedded as an `Option`-returning bounds-checked access, `none` marking
the undefined behaviour of an out-of-bounds access.

The interrupt-driven control flow (7.8 kHz tick interrupt, ~30 Hz touch
poll interrupt, main loop) is embedded as a step function over an explicit
state record, driven by an event trace; `Reach` is the set of states
reachable from the power-on state.
-/

/-- Reduction modulo 2^16 into [0, 65535]: the value of an expression of
unsigned 16-bit type. -/
def u16 (v : Int) : Int := v % 65536

/-- Conversion of a 16-bit bit pattern to a signed 16-bit value in
[-32768, 32767]: AVR assignment of an unsigned 16-bit value to `int`. -/
def toS16 (v : Int) : Int := (v + 32768) % 65536 - 32768

/-- Conversion to a signed 8-bit value in [-128, 127]: AVR assignment of a
wider integer to `S8`. -/
def toS8 (v : Int) : Int := (v + 128) % 256 - 128

/-- Colour constant BLUE from Touchscreen.h. -/
def BLUE : Int := 31

/-- Colour constant RED from Touchscreen.h. -/
def RED : Int := 63488

/-- Colour constant GREEN from Touchscreen.h. -/
def GREEN : Int := 2016

/-- MAIN_PAGE, the only page; `currentPage` is initialised to it and never
reassigned anywhere in the source, so it is embedded as a constant. -/
def currentPage : Int := 0

/-- NUM_BUTTONS from the `Buttons` enum (13 buttons, WALK_MODE = 0 …
BLUE_EYES = 12; NONE = -1 is the sentinel). -/
def NUM_BUTTONS : Nat := 13

/-- NUM_SLIDERS from the `Sliders` enum (FRONT_SERVO = 0, BACK_SERVO = 1). -/
def NUM_SLIDERS : Nat := 2

/-- The `Button` struct: U16 x, y, width, colour; label text; bool
highlighted, selected, needsRedraw; U8 page. -/
structure Button where
  x : Int
  y : Int
  width : Int
  colour : Int
  text : String
  highlighted : Bool
  selected : Bool
  needsRedraw : Bool
  page : Int

/-- The `Slider` struct: U16 x, y, width, colour; S8 value, oldValue;
U8 page. -/
structure Slider where
  x : Int
  y : Int
  width : Int
  colour : Int
  value : Int
  oldValue : Int
  page : Int

/-- `ButtonTouched` (Touchscreen.h lines 216-221).  `button->width/2` is an
unsigned 16-bit division, the additive expressions and all four coordinate
comparisons are performed in unsigned 16-bit arithmetic because `x`, `y`,
`width` have type U16 (promoted to `unsigned int` on a 16-bit-int target),
which drags the `int` operand `touchX`/`touchY` to unsigned. -/
def ButtonTouched (tx ty : Int) (b : Button) : Bool :=
  let halfW : Int := u16 b.width / 2
  decide (u16 (b.x - halfW) ≤ u16 tx) && decide (u16 tx ≤ u16 (b.x + halfW))
    && decide (u16 b.y ≤ u16 ty) && decide (u16 ty ≤ u16 (b.y + 32))
    && decide (currentPage = b.page)

/-- `SliderTouched` (lines 223-228), same shape as `ButtonTouched`. -/
def SliderTouched (tx ty : Int) (sl : Slider) : Bool :=
  let halfW : Int := u16 sl.width / 2
  decide (u16 (sl.x - halfW) ≤ u16 tx) && decide (u16 tx ≤ u16 (sl.x + halfW))
    && decide (u16 sl.y ≤ u16 ty) && decide (u16 ty ≤ u16 (sl.y + 32))
    && decide (currentPage = sl.page)

/-- The slider-drag body of `HandleTouchDown` (lines 456-463) for one
slider.  In C:
  int usableWidth = slider->width-16;            (unsigned 16-bit subtraction,
                                                  then conversion to int)
  slider->value = 100*(touchX - (slider->x-usableWidth/2))/usableWidth;
  if (slider->value < 0) slider->value = 0;
  if (slider->value > 100) slider->value = 100;
`usableWidth/2` is a signed (truncating) division, but `slider->x - …`,
`touchX - …`, the product by 100 and the final division are unsigned
16-bit operations (U16 operand promotes the whole expression), and the
assignment to the S8 field `value` reduces modulo 2^8.  The case
`u16 (width - 16) = 0` (division by zero) is undefined behaviour in C;
here the Lean convention `n / 0 = 0` stands in, and no theorem below
depends on that case. -/
def dragSlider (tx : Int) (sl : Slider) : Slider :=
  let uwU : Int := u16 (sl.width - 16)
  let uwS : Int := toS16 uwU
  let base : Int := u16 (sl.x - Int.tdiv uwS 2)
  let num : Int := u16 (100 * u16 (tx - base))
  let v0 : Int := toS8 (num / uwU)
  let v1 : Int := if v0 < 0 then 0 else v0
  let v2 : Int := if 100 < v1 then 100 else v1
  { sl with value := v2 }

/-- The `touchTimer > 3` loop of `HandleTouchDown` (lines 452-465):
every slider that is hit and currently dragged gets its value recomputed;
the loop iterations are independent, so it is a pointwise map. -/
def dragUpdate (tx ty tSlider : Int) (ss : Fin 2 → Slider) :
    Fin 2 → Slider := fun n =>
  if SliderTouched tx ty (ss n) && decide (tSlider = (n.val : Int)) then
    dragSlider tx (ss n)
  else ss n

/-- The `touchTimer == 3` button-arming loop of `HandleTouchDown`
(lines 446-447): `for n: if (ButtonTouched(&buttons[n])) touchedButton = n;`
starting from the current value of `touchedButton`. -/
def armButtonIndex (tx ty : Int) (bs : Fin 13 → Button) (cur : Int) : Int :=
  (List.finRange 13).foldl
    (fun a n => if ButtonTouched tx ty (bs n) then (n.val : Int) else a) cur

/-- The `touchTimer == 3` slider-arming loop of `HandleTouchDown`
(lines 449-450). -/
def armSliderIndex (tx ty : Int) (ss : Fin 2 → Slider) (cur : Int) : Int :=
  (List.finRange 2).foldl
    (fun a n => if SliderTouched tx ty (ss n) then (n.val : Int) else a) cur

/-- Bounds-checked access `buttons[i]` for an index of signed type:
`none` is an out-of-bounds access (undefined behaviour in C). -/
def buttonAt (bs : Fin 13 → Button) (i : Int) : Option Button :=
  if h : 0 ≤ i ∧ i < 13 then some (bs ⟨i.toNat, by omega⟩) else none

/-- One write pair `buttons[j].selected = v; buttons[j].needsRedraw = true;`
at a valid index. -/
def updButton (j : Fin 13) (v : Bool) (bs : Fin 13 → Button) :
    Fin 13 → Button := fun k =>
  if k = j then { bs k with selected := v, needsRedraw := true } else bs k

/-- Bounds-checked form of the write pair for an index of signed type. -/
def setSel (i : Int) (v : Bool) (bs : Fin 13 → Button) :
    Option (Fin 13 → Button) :=
  if h : 0 ≤ i ∧ i < 13 then some (updButton ⟨i.toNat, by omega⟩ v bs) else none

/-- `SelectButton` (lines 536-547): unconditional writes through
`buttons[newButton]` and `buttons[oldButton]`, and writes through
`buttons[otherOldButton]` only under the guard `otherOldButton != NONE`. -/
def SelectButton (newButton oldButton otherOldButton : Int)
    (bs : Fin 13 → Button) : Option (Fin 13 → Button) :=
  match setSel newButton true bs with
  | none => none
  | some bs1 =>
    match setSel oldButton false bs1 with
    | none => none
    | some bs2 =>
      if otherOldButton = -1 then some bs2 else setSel otherOldButton false bs2

/-- Modelled from the spec: the selection contract of section 4.2 of the
spec, in which a sentinel -1 in a deselect slot (either `oldButton` or
`otherOldButton`) is a no-op for that slot.  Used only to compare the
spec's words with the source's `SelectButton`. -/
def SelectButtonSpec (newButton oldButton otherOldButton : Int)
    (bs : Fin 13 → Button) : Fin 13 → Button :=
  let setSpec : Int → Bool → (Fin 13 → Button) → Fin 13 → Button :=
    fun i v f => if h : 0 ≤ i ∧ i < 13 then updButton ⟨i.toNat, by omega⟩ v f else f
  setSpec otherOldButton false (setSpec oldButton false (setSpec newButton true bs))

/-- The `switch (buttonPressed)` dispatch at the top of the main loop
(lines 296-365): updates `controlBits`, calls `SelectButton` with the
group's sibling ids, and for the eye buttons transmits a sideband byte
(114 = r, 103 = g, 98 = b).  Any value not in 0..12 (including the
sentinel -1) falls through with no effect. -/
def mainDispatch (p : Int) (cb : Nat) (bs : Fin 13 → Button) :
    Option (Nat × (Fin 13 → Button) × List Nat) :=
  if p = 0 then (SelectButton 0 1 (-1) bs).map (fun b => (cb &&& 254, b, []))
  else if p = 1 then (SelectButton 1 0 (-1) bs).map (fun b => (cb ||| 1, b, []))
  else if p = 2 then (SelectButton 2 3 (-1) bs).map (fun b => (cb &&& 239, b, []))
  else if p = 3 then (SelectButton 3 2 (-1) bs).map (fun b => (cb ||| 16, b, []))
  else if p = 4 then (SelectButton 4 5 (-1) bs).map (fun b => (cb &&& 251, b, []))
  else if p = 5 then (SelectButton 5 4 (-1) bs).map (fun b => (cb ||| 4, b, []))
  else if p = 6 then (SelectButton 6 7 (-1) bs).map (fun b => (cb &&& 253, b, []))
  else if p = 7 then (SelectButton 7 6 (-1) bs).map (fun b => (cb ||| 2, b, []))
  else if p = 8 then (SelectButton 8 9 (-1) bs).map (fun b => (cb &&& 247, b, []))
  else if p = 9 then (SelectButton 9 8 (-1) bs).map (fun b => (cb ||| 8, b, []))
  else if p = 10 then (SelectButton 10 11 12 bs).map (fun b => (cb, b, [114]))
  else if p = 11 then (SelectButton 11 10 12 bs).map (fun b => (cb, b, [103]))
  else if p = 12 then (SelectButton 12 10 11 bs).map (fun b => (cb, b, [98]))
  else some (cb, bs, [])

/-- The mutual-exclusion group of a button, read off the sibling ids the
main loop passes to `SelectButton`: {Walk, Wiggle}, {Tripod, Ripple},
{LowBody, HighBody}, {LowStep, HighStep}, {Long, Quick},
{Red, Green, Blue}. -/
def groupOf (p : Fin 13) : List (Fin 13) :=
  if p.val ≤ 1 then [0, 1]
  else if p.val ≤ 3 then [2, 3]
  else if p.val ≤ 5 then [4, 5]
  else if p.val ≤ 7 then [6, 7]
  else if p.val ≤ 9 then [8, 9]
  else [10, 11, 12]

/-- The four joystick axis bytes `left_x, left_y, right_x, right_y`. -/
structure Axes where
  left_x : Nat
  left_y : Nat
  right_x : Nat
  right_y : Nat

/-- The ADC readings consumed by one 10 Hz cycle: `ReadADC` returns the
10-bit conversion register ADCW, so each reading is reduced modulo 1024. -/
structure CycleIn where
  v_batt : Nat
  adc_left_x : Nat
  adc_left_y : Nat
  adc_right_x : Nat
  adc_right_y : Nat

/-- `ReadADC` result: the 10-bit ADC word, 0..1023. -/
def readADC (raw : Nat) : Nat := raw % 1024

/-- The joystick sampling of one 10 Hz cycle (lines 384-387):
`left_x = ReadADC(LEFT_X)>>2;` etc., downsampling 10 bits to 8. -/
def cycleAxes (c : CycleIn) : Axes :=
  { left_x := readADC c.adc_left_x / 4
    left_y := readADC c.adc_left_y / 4
    right_x := readADC c.adc_right_x / 4
    right_y := readADC c.adc_right_y / 4 }

/-- `int newControllerSoC = (ReadADC(V_BATT)-500)*2/3;` (line 380):
16-bit signed arithmetic, truncating division; no intermediate exceeds
16 bits since the ADC word is 0..1023. -/
def newControllerSoC (raw : Nat) : Int :=
  Int.tdiv (((readADC raw : Int) - 500) * 2) 3

/-- The controller-battery monotonic-decrease filter (lines 380-382):
the freshly computed percentage is stored only if strictly lower. -/
def applyControllerSoC (cur : Int) (raw : Nat) : Int :=
  if newControllerSoC raw < cur then newControllerSoC raw else cur

/-- The inbound-status monotonic-decrease filter (lines 369-373): UDR1 is
an 8-bit register, read into an int and stored only if strictly lower. -/
def applyHexapodSoC (cur : Int) (b : Nat) : Int :=
  if ((b % 256 : Nat) : Int) < cur then ((b % 256 : Nat) : Int) else cur

/-- The 7-byte telemetry frame of one 10 Hz cycle (lines 388-394), as the
byte values passed through `Transmit(unsigned char c)`: command character
(99, the character c), control bitfield, four axis bytes, and the checksum
`controlBits + left_x + left_y + right_x + right_y` whose int sum is
reduced modulo 256 by the unsigned-char parameter. -/
def telemetryFrame (cb : Nat) (c : CycleIn) : List Nat :=
  let a := cycleAxes c
  [99 % 256, cb % 256, a.left_x % 256, a.left_y % 256, a.right_x % 256,
    a.right_y % 256, (cb + a.left_x + a.left_y + a.right_x + a.right_y) % 256]

/-- Result of draining the tick accumulator: final `ticks`, final
`controllerSoC`, final joystick bytes, and the frames sent. -/
structure DrainOut where
  ticks : Int
  soc : Int
  axes : Axes
  frames : List (List Nat)

/-- The 10 Hz gate `while (ticks > 781)` of the main loop (lines 375-395):
each iteration subtracts 781, samples the battery through the
monotonic-decrease filter, samples the four joystick channels and
transmits one telemetry frame.  `cin i` supplies the ADC readings of the
i-th iteration of this pass. -/
def tenHzDrain (cin : Nat → CycleIn) (cb : Nat) (ticks soc : Int) (ax : Axes) :
    DrainOut :=
  if h : 781 < ticks then
    let soc1 := applyControllerSoC soc (cin 0).v_batt
    let ax1 := cycleAxes (cin 0)
    let r := tenHzDrain (fun i => cin (i + 1)) cb (ticks - 781) soc1 ax1
    { r with frames := telemetryFrame cb (cin 0) :: r.frames }
  else
    { ticks := ticks, soc := soc, axes := ax, frames := [] }
termination_by ticks.toNat
decreasing_by omega

/-- A ~30 Hz poll observation: either touch data available with the raw
(unsigned 16-bit) coordinates delivered by Touch_GetX/Touch_GetY, or no
touch. -/
inductive TouchInput where
  | present (rawX rawY : Int)
  | absent

/-- The external inputs of one main-loop pass: the optional received UART
byte (lines 369-373) and the ADC readings of each drained 10 Hz cycle. -/
structure PassIn where
  uart : Option Nat
  cycles : Nat → CycleIn

/-- The mutable globals of the firmware that feed back into its logic.
`displayBrightness` and `displayNeedsFullRedraw` only gate draw calls and
are omitted; `currentPage` is never reassigned and is a constant. -/
structure St where
  ticks : Int
  touchTimer : Int
  touchX : Int
  touchY : Int
  touchedButton : Int
  touchedSlider : Int
  buttonPressed : Int
  controlBits : Nat
  hexapodSoC : Int
  controllerSoC : Int
  left_x : Nat
  left_y : Nat
  right_x : Nat
  right_y : Nat
  buttons : Fin 13 → Button
  sliders : Fin 2 → Slider

/-- `HandleTouchDown` (lines 439-466).  `touchX = Touch_GetX()` converts
the unsigned 16-bit reading to a (16-bit) int.  At `touchTimer == 3` the
arming loops run; for `touchTimer > 3` the slider-drag loop runs;
otherwise only the coordinates are stored. -/
def HandleTouchDown (rawX rawY : Int) (s : St) : St :=
  let tx := toS16 (u16 rawX)
  let ty := toS16 (u16 rawY)
  let s1 := { s with touchX := tx, touchY := ty }
  if s1.touchTimer = 3 then
    { s1 with touchedButton := armButtonIndex tx ty s1.buttons s1.touchedButton
              touchedSlider := armSliderIndex tx ty s1.sliders s1.touchedSlider }
  else if 3 < s1.touchTimer then
    { s1 with sliders := dragUpdate tx ty s1.touchedSlider s1.sliders }
  else s1

/-- `HandleTouchUp` (lines 468-476): touches shorter than 3 ticks are
discarded; otherwise `ButtonTouched(&buttons[touchedButton])` is
evaluated — an out-of-bounds access (`none`) whenever `touchedButton`
is not in 0..12 — and on a hit the press is committed; the armed
indices are cleared unconditionally. -/
def HandleTouchUp (s : St) : Option St :=
  if s.touchTimer < 3 then some s
  else
    match buttonAt s.buttons s.touchedButton with
    | none => none
    | some b =>
      let s1 := if ButtonTouched s.touchX s.touchY b then
          { s with buttonPressed := s.touchedButton }
        else s
      some { s1 with touchedButton := -1, touchedSlider := -1 }

/-- `RenderButtons` (lines 567-587): recomputes `highlighted` from the
live touch position and armed index, and clears `needsRedraw` when the
button is on the current page and was redrawn. -/
def renderButtonsPass (tx ty tb : Int) (bs : Fin 13 → Button) : Fin 13 → Button :=
  fun n =>
    let b := bs n
    let h := ButtonTouched tx ty b && decide (tb = (n.val : Int))
    if decide (b.page = currentPage) && (decide (b.highlighted ≠ h) || b.needsRedraw) then
      { b with highlighted := h, needsRedraw := false }
    else
      { b with highlighted := h }

/-- `RenderSliders` (lines 589-609): when a slider is on the current page
and its value changed, it is redrawn and `oldValue` is refreshed. -/
def renderSlidersPass (ss : Fin 2 → Slider) : Fin 2 → Slider :=
  fun n =>
    let sl := ss n
    if decide (sl.page = currentPage) && decide (sl.oldValue ≠ sl.value) then
      { sl with oldValue := sl.value }
    else sl

/-- One main-loop pass (lines 294-406): dispatch the pending button press,
clear it, drain one received UART byte through the monotonic filter, drain
the 10 Hz tick accumulator, then render (battery drawing has no modelled
state; button and slider rendering update their dirty state). -/
def mainPass (pin : PassIn) (s : St) : Option St :=
  match mainDispatch s.buttonPressed s.controlBits s.buttons with
  | none => none
  | some (cb2, bs2, _out) =>
    let s1 : St := { s with controlBits := cb2, buttons := bs2, buttonPressed := -1 }
    let s2 : St :=
      match pin.uart with
      | some b => { s1 with hexapodSoC := applyHexapodSoC s1.hexapodSoC b }
      | none => s1
    let d := tenHzDrain pin.cycles s2.controlBits s2.ticks s2.controllerSoC
      { left_x := s2.left_x, left_y := s2.left_y,
        right_x := s2.right_x, right_y := s2.right_y }
    let s3 : St := { s2 with ticks := d.ticks, controllerSoC := d.soc,
                             left_x := d.axes.left_x, left_y := d.axes.left_y,
                             right_x := d.axes.right_x, right_y := d.axes.right_y }
    some { s3 with
      buttons := renderButtonsPass s3.touchX s3.touchY s3.touchedButton s3.buttons
      sliders := renderSlidersPass s3.sliders }

/-- The machine events: the 7.8 kHz timer-0 tick (ticks++), one ~30 Hz
touch-poll interrupt (timer-1 ISR, lines 243-261), or one main-loop pass. -/
inductive Ev where
  | tick0
  | poll (inp : TouchInput)
  | mainPass (pin : PassIn)

/-- One machine step.  The timer-1 ISR body: on touch data, `Touch_Read`,
`touchTimer++`, `HandleTouchDown`; otherwise `HandleTouchUp` when a touch
was in progress, then reset `touchTimer` and park the coordinates at -1. -/
def stepM (e : Ev) (s : St) : Option St :=
  match e with
  | Ev.tick0 => some { s with ticks := s.ticks + 1 }
  | Ev.poll (TouchInput.present rawX rawY) =>
    some (HandleTouchDown rawX rawY { s with touchTimer := s.touchTimer + 1 })
  | Ev.poll TouchInput.absent =>
    match (if 0 < s.touchTimer then HandleTouchUp s else some s) with
    | none => none
    | some s1 => some { s1 with touchTimer := 0, touchX := -1, touchY := -1 }
  | Ev.mainPass pin => mainPass pin s

/-- Run a trace of events from a state; `none` once any step hits
undefined behaviour. -/
def run (s : St) : List Ev → Option St
  | [] => some s
  | e :: es =>
    match stepM e s with
    | none => none
    | some s2 => run s2 es

/-- `InitialiseButton` (lines 522-534). -/
def InitialiseButton (x y width colour : Int) (text : String) (selected : Bool) :
    Button :=
  { x := x, y := y, width := width, colour := colour, text := text,
    highlighted := false, selected := selected, needsRedraw := true,
    page := currentPage }

/-- The button array after the 13 `InitialiseButton` calls at the top of
`main` (lines 267-284). -/
def initButtons : Fin 13 → Button := fun n =>
  match n with
  | 0 => InitialiseButton 140 30 100 BLUE ("Walk") true
  | 1 => InitialiseButton 260 30 100 BLUE ("Wiggle") false
  | 2 => InitialiseButton 140 65 100 BLUE ("Tripod") true
  | 3 => InitialiseButton 260 65 100 BLUE ("Ripple") false
  | 4 => InitialiseButton 140 100 100 BLUE ("Low") true
  | 5 => InitialiseButton 260 100 100 BLUE ("High") false
  | 6 => InitialiseButton 140 135 100 BLUE ("Low") true
  | 7 => InitialiseButton 260 135 100 BLUE ("High") false
  | 8 => InitialiseButton 140 170 100 BLUE ("Long") true
  | 9 => InitialiseButton 260 170 100 BLUE ("Quick") false
  | 10 => InitialiseButton 122 205 64 RED ("Red") false
  | 11 => InitialiseButton 200 205 70 GREEN ("Green") true
  | 12 => InitialiseButton 278 205 64 BLUE ("Blue") false

/-- The slider array at startup: `InitialiseSlider` (lines 549-559) is
declared but never called, so the statically allocated `sliders` array
keeps the C zero initialisation of objects with static storage duration —
every field of both sliders is 0. -/
def initSliders : Fin 2 → Slider :=
  fun _ => { x := 0, y := 0, width := 0, colour := 0, value := 0,
             oldValue := 0, page := 0 }

/-- The power-on state after `main`'s initialisation: zero-initialised
globals (`ticks`, `touchTimer`, `touchX`, `touchY`, `controlBits`, the
joystick bytes), the explicit initialisers `touchedButton = NONE`,
`touchedSlider = -1`, `buttonPressed = -1`, `controllerSoC = 100`,
`hexapodSoC = 100`, the initialised button array and the untouched
zero slider array. -/
def initSt : St :=
  { ticks := 0, touchTimer := 0, touchX := 0, touchY := 0,
    touchedButton := -1, touchedSlider := -1, buttonPressed := -1,
    controlBits := 0, hexapodSoC := 100, controllerSoC := 100,
    left_x := 0, left_y := 0, right_x := 0, right_y := 0,
    buttons := initButtons, sliders := initSliders }

/-- States reachable from power-on by any interleaving of timer ticks,
touch polls and main-loop passes. -/
inductive Reach : St → Prop where
  | init : Reach initSt
  | step {s s2 : St} (e : Ev) : Reach s → stepM e s = some s2 → Reach s2

/-- Modelled from the spec: the idealized slider value-from-drag formula of
spec section 4.2 — usable width = width − 16, percentage =
100 × (touchX − (center − usableWidth/2)) / usableWidth with truncating
(toward-zero) division, clamped to [0, 100].  Used only to compare the
spec's words with the source computation. -/
def sliderValueFromDragSpec (tx : Int) (sl : Slider) : Int :=
  let usableWidth := sl.width - 16
  let p := Int.tdiv (100 * (tx - (sl.x - Int.tdiv usableWidth 2))) usableWidth
  if p < 0 then 0 else if 100 < p then 100 else p

/-- Shape invariant of the slider array: the geometry fields a drag or a
render never writes (only `value` and `oldValue` are ever assigned after
startup). -/
def SliderShape (s : St) : Prop :=
  ∀ n : Fin 2, (s.sliders n).x = 0 ∧ (s.sliders n).y = 0 ∧
    (s.sliders n).width = 0 ∧ (s.sliders n).page = 0

theorem list_getLast?_cons_of_ne_nil {α : Type} (x y : α) (ys : List α) :
    (x :: y :: ys).getLast? = (y :: ys).getLast? :=
  List.getLast?_cons_cons

theorem foldl_if_lastwins {α β : Type} (P : α → Bool) (f : α → β) :
    ∀ (l : List α) (init : β),
      l.foldl (fun a n => if P n then f n else a) init
        = (((l.filter P).getLast?).map f).getD init := by
  intro l
  induction l with
  | nil => intro init; simp
  | cons x t ih =>
    intro init
    rw [List.foldl_cons, List.filter_cons]
    cases hx : P x with
    | false => simpa using ih init
    | true =>
      rw [if_pos rfl, if_pos rfl, ih (f x)]
      cases htf : t.filter P with
      | nil => simp
      | cons y ys =>
        rw [list_getLast?_cons_of_ne_nil]
        cases hgl : (y :: ys).getLast? with
        | none => exact absurd (List.getLast?_eq_none_iff.mp hgl) (by simp)
        | some z => simp

/-- C10: at the debounce-settle tick the arming loops scan the widget
arrays in declaration order and overwrite the armed index on every hit, so
the armed widget is the last one in iteration order whose hit-test passes
(and the incoming index survives only when no hit-test passes); the same
rule holds for buttons and for sliders. -/
theorem arming_last_hit_wins (bs : Fin 13 → Button) (ss : Fin 2 → Slider)
    (tx ty curB curS : Int) :
    armButtonIndex tx ty bs curB
        = ((((List.finRange 13).filter fun n => ButtonTouched tx ty (bs n)).getLast?).map
            (fun n => (n.val : Int))).getD curB
      ∧ armSliderIndex tx ty ss curS
        = ((((List.finRange 2).filter fun n => SliderTouched tx ty (ss n)).getLast?).map
            (fun n => (n.val : Int))).getD curS :=
  ⟨foldl_if_lastwins _ _ _ curB, foldl_if_lastwins _ _ _ curS⟩

/-- C5: the 10 Hz telemetry frame is 7 bytes — command character 99, the
control bitfield, the four joystick bytes, then a checksum equal to the
sum of bytes 2 through 6 reduced modulo 256; and at
controlBits = 0b00010001, left x 10, left y 20, right x 30, right y 40
(ADC words 40, 80, 120, 160) the checksum byte is 117. -/
theorem telemetryFrame_layout_checksum (cb : Nat) (c : CycleIn) :
    (telemetryFrame cb c).length = 7
      ∧ (telemetryFrame cb c).getD 0 0 = 99
      ∧ (telemetryFrame cb c).getD 6 0
          = ((telemetryFrame cb c).getD 1 0 + (telemetryFrame cb c).getD 2 0
              + (telemetryFrame cb c).getD 3 0 + (telemetryFrame cb c).getD 4 0
              + (telemetryFrame cb c).getD 5 0) % 256
      ∧ telemetryFrame 17 ⟨0, 40, 80, 120, 160⟩ = [99, 17, 10, 20, 30, 40, 117] := by
  refine ⟨rfl, rfl, ?_, by decide⟩
  simp only [telemetryFrame, cycleAxes, readADC, List.getD_cons_succ, List.getD_cons_zero]
  omega

/-- C8: both battery estimates go through a monotonic-decrease filter:
the result never exceeds the held value, and equals the minimum of the
incoming sample (the received byte, resp. the freshly computed controller
percentage) and the held value — so a sample is adopted exactly when it is
strictly lower. -/
theorem soc_monotone_filters (cur : Int) (b raw : Nat) :
    applyHexapodSoC cur b ≤ cur
      ∧ applyHexapodSoC cur b = min ((b % 256 : Nat) : Int) cur
      ∧ applyControllerSoC cur raw ≤ cur
      ∧ applyControllerSoC cur raw = min (newControllerSoC raw) cur := by
  refine ⟨?_, ?_, ?_, ?_⟩ <;> simp only [applyHexapodSoC, applyControllerSoC] <;>
    split <;> omega

/-- C2 counterexample: `SelectButton(WALK_MODE, NONE, NONE)` — the
sentinel -1 in the `oldButton` deselect slot is not a no-op: the
unconditional write `buttons[oldButton].selected = false` accesses
`buttons[-1]`, out of bounds (`none`), so the call does not produce the
state the spec's selection contract (select the new button, skip both
sentinel slots) mandates. -/
theorem SelectButton_oldButton_sentinel_oob :
    SelectButton 0 (-1) (-1) initButtons = none
      ∧ SelectButton 0 (-1) (-1) initButtons
          ≠ some (SelectButtonSpec 0 (-1) (-1) initButtons) := by
  refine ⟨rfl, ?_⟩
  intro h
  exact Option.noConfusion (h.symm.trans rfl)

/-- C2 amended: only the `otherOldButton` deselect slot is guarded against
the sentinel: with otherOldButton = -1 the call is exactly the select-new
plus deselect-old write sequence, no access happening on account of the
third slot; a sentinel -1 in the `oldButton` slot, by contrast, is an
unguarded out-of-bounds `buttons[-1]` access for every new-button id and
every button state, not a no-op. -/
theorem SelectButton_sentinel_slots (bs : Fin 13 → Button) (nb ob other : Int) :
    SelectButton nb ob (-1) bs = (setSel nb true bs).bind (fun b1 => setSel ob false b1)
      ∧ SelectButton nb (-1) other bs = none := by
  constructor
  · cases h1 : setSel nb true bs with
    | none => simp [SelectButton, h1]
    | some bs1 =>
      cases h2 : setSel ob false bs1 with
      | none => simp [SelectButton, h1, h2]
      | some bs2 => simp [SelectButton, h1, h2]
  · cases h1 : setSel nb true bs with
    | none => simp [SelectButton, h1]
    | some bs1 =>
      have h2 : setSel (-1) false bs1 = none := by
        simp [setSel]
      simp [SelectButton, h1, h2]

/-- C7: dispatching any committed button press p through the main loop's
switch succeeds and leaves exactly one button of p's mutual-exclusion
group selected: p itself, with `needsRedraw` set on every member of the
group. -/
theorem mainDispatch_group_exclusive (bs : Fin 13 → Button) (cb : Nat) (p : Fin 13) :
    ∃ r, mainDispatch (p.val : Int) cb bs = some r
      ∧ ((groupOf p).countP fun q => (r.2.1 q).selected) = 1
      ∧ ((groupOf p).all fun q => ((r.2.1 q).selected == (q == p)) && (r.2.1 q).needsRedraw)
          = true := by
  fin_cases p <;> exact ⟨_, rfl, rfl, rfl⟩

theorem applyControllerSoC_le (cur : Int) (raw : Nat) :
    applyControllerSoC cur raw ≤ cur := by
  simp only [applyControllerSoC]; split <;> omega

theorem tenHzDrain_unfold_pos (cin : Nat → CycleIn) (cb : Nat) (ticks soc : Int)
    (ax : Axes) (h : 781 < ticks) :
    tenHzDrain cin cb ticks soc ax
      = (let r := tenHzDrain (fun i => cin (i + 1)) cb (ticks - 781)
            (applyControllerSoC soc (cin 0).v_batt) (cycleAxes (cin 0))
         { r with frames := telemetryFrame cb (cin 0) :: r.frames }) := by
  rw [tenHzDrain]
  simp [h]

theorem tenHzDrain_unfold_neg (cin : Nat → CycleIn) (cb : Nat) (ticks soc : Int)
    (ax : Axes) (h : ¬ 781 < ticks) :
    tenHzDrain cin cb ticks soc ax
      = { ticks := ticks, soc := soc, axes := ax, frames := [] } := by
  rw [tenHzDrain]
  simp [h]

theorem tenHzDrain_props (N : Nat) :
    ∀ (cin : Nat → CycleIn) (cb : Nat) (ticks soc : Int) (ax : Axes),
      ticks.toNat ≤ N →
        (tenHzDrain cin cb ticks soc ax).ticks
            = ticks - 781 * (tenHzDrain cin cb ticks soc ax).frames.length
          ∧ ¬ 781 < (tenHzDrain cin cb ticks soc ax).ticks
          ∧ (tenHzDrain cin cb ticks soc ax).soc ≤ soc := by
  induction N with
  | zero =>
    intro cin cb ticks soc ax hN
    have h : ¬ 781 < ticks := by omega
    rw [tenHzDrain_unfold_neg cin cb ticks soc ax h]
    simpa using h
  | succ N ih =>
    intro cin cb ticks soc ax hN
    by_cases h : 781 < ticks
    · rw [tenHzDrain_unfold_pos cin cb ticks soc ax h]
      have hN2 : (ticks - 781).toNat ≤ N := by omega
      obtain ⟨ih1, ih2, ih3⟩ := ih (fun i => cin (i + 1)) cb (ticks - 781)
        (applyControllerSoC soc (cin 0).v_batt) (cycleAxes (cin 0)) hN2
      refine ⟨?_, by simpa using ih2, ?_⟩
      · simp only [List.length_cons]
        omega
      · exact le_trans ih3 (applyControllerSoC_le soc (cin 0).v_batt)
    · rw [tenHzDrain_unfold_neg cin cb ticks soc ax h]
      simpa using h

/-- C1 counterexample: a main-loop pass entered with the tick accumulator
at exactly 781 performs no 10 Hz cycle at all — the gate is the strict
comparison `ticks > 781`, so nothing is subtracted, no ADC sample is
taken, and no telemetry frame is sent. -/
theorem tenHzDrain_exactly_781_no_cycle :
    tenHzDrain (fun _ => ⟨0, 0, 0, 0, 0⟩) 0 781 100 ⟨0, 0, 0, 0⟩
      = { ticks := 781, soc := 100, axes := ⟨0, 0, 0, 0⟩, frames := [] } :=
  tenHzDrain_unfold_neg _ _ _ _ _ (by omega)

/-- C1 amended: the 10 Hz gate fires only while the accumulated tick
counter strictly exceeds 781.  Whenever a pass is entered with
ticks > 781 (i.e. at least 782), at least one full cycle runs; each cycle
subtracts 781 (the final counter is the entry counter minus 781 times the
number of cycles, and no longer exceeds 781), applies the battery
monotonic-decrease filter (the controller estimate never rises), and
transmits one telemetry frame per cycle, the first built from the first
cycle's ADC readings; a pass entered with ticks equal to exactly 781
performs no cycle. -/
theorem tenHzDrain_gate_strict (cin : Nat → CycleIn) (cb : Nat) (ticks soc : Int)
    (ax : Axes) (h : 781 < ticks) :
    1 ≤ (tenHzDrain cin cb ticks soc ax).frames.length
      ∧ (tenHzDrain cin cb ticks soc ax).ticks
          = ticks - 781 * (tenHzDrain cin cb ticks soc ax).frames.length
      ∧ ¬ 781 < (tenHzDrain cin cb ticks soc ax).ticks
      ∧ (tenHzDrain cin cb ticks soc ax).soc ≤ soc
      ∧ (tenHzDrain cin cb ticks soc ax).frames.head? = some (telemetryFrame cb (cin 0)) := by
  obtain ⟨h1, h2, h3⟩ := tenHzDrain_props ticks.toNat cin cb ticks soc ax le_rfl
  refine ⟨?_, h1, h2, h3, ?_⟩
  · rw [tenHzDrain_unfold_pos cin cb ticks soc ax h]
    simp
  · rw [tenHzDrain_unfold_pos cin cb ticks soc ax h]
    simp

/-- Witness for the amended C1 theorem at the concrete entry counter 1000:
the hypothesis 781 < 1000 holds and one full cycle is performed. -/
theorem tenHzDrain_gate_strict_witness :
    (781 : Int) < 1000
      ∧ (1 ≤ (tenHzDrain (fun _ => ⟨0, 0, 0, 0, 0⟩) 0 1000 100 ⟨0, 0, 0, 0⟩).frames.length
          ∧ (tenHzDrain (fun _ => ⟨0, 0, 0, 0, 0⟩) 0 1000 100 ⟨0, 0, 0, 0⟩).ticks
              = 1000 - 781 * (tenHzDrain (fun _ => ⟨0, 0, 0, 0, 0⟩) 0 1000 100 ⟨0, 0, 0, 0⟩).frames.length
          ∧ ¬ 781 < (tenHzDrain (fun _ => ⟨0, 0, 0, 0, 0⟩) 0 1000 100 ⟨0, 0, 0, 0⟩).ticks
          ∧ (tenHzDrain (fun _ => ⟨0, 0, 0, 0, 0⟩) 0 1000 100 ⟨0, 0, 0, 0⟩).soc ≤ 100
          ∧ (tenHzDrain (fun _ => ⟨0, 0, 0, 0, 0⟩) 0 1000 100 ⟨0, 0, 0, 0⟩).frames.head?
              = some (telemetryFrame 0 ⟨0, 0, 0, 0, 0⟩)) :=
  ⟨by omega, tenHzDrain_gate_strict (fun _ => ⟨0, 0, 0, 0, 0⟩) 0 1000 100 ⟨0, 0, 0, 0⟩ (by omega)⟩

/-- C3: the touch-release handler does index the buttons array out of
bounds on a reachable execution.  Holding a touch at raw coordinates
(5, 100) — a position whose hit-test passes for no button and no
slider — for 3 consecutive poll ticks leaves `touchedButton` at the
sentinel -1 with `touchTimer = 3`; the release poll then runs
`HandleTouchUp` past its `touchTimer < 3` guard and evaluates
`ButtonTouched(&buttons[touchedButton])` at index -1, an out-of-bounds
access (`none`). -/
theorem HandleTouchUp_out_of_bounds_on_release :
    (run initSt [Ev.poll (TouchInput.present 5 100), Ev.poll (TouchInput.present 5 100),
        Ev.poll (TouchInput.present 5 100)]).map St.touchedButton = some (-1)
      ∧ (run initSt [Ev.poll (TouchInput.present 5 100), Ev.poll (TouchInput.present 5 100),
          Ev.poll (TouchInput.present 5 100)]).map St.touchTimer = some 3
      ∧ run initSt [Ev.poll (TouchInput.present 5 100), Ev.poll (TouchInput.present 5 100),
          Ev.poll (TouchInput.present 5 100), Ev.poll TouchInput.absent] = none :=
  ⟨rfl, rfl, rfl⟩

/-- C4: a touch session shorter than 3 consecutive poll ticks is discarded
as noise.  Starting from any state with no touch in progress, no pending
press and no armed widget, a session of fewer than 3 touch-present polls
followed by a touch-absent poll commits nothing (`buttonPressed` stays
-1), arms nothing (`touchedButton` and `touchedSlider` stay -1), and
leaves every slider — in particular every slider value — unchanged. -/
theorem short_touch_session_noop (s : St) (xs : List (Int × Int))
    (hlen : xs.length < 3) (h0 : s.touchTimer = 0) (hb : s.buttonPressed = -1)
    (ht : s.touchedButton = -1) (hsl : s.touchedSlider = -1) :
    ∃ s2, run s ((xs.map fun p => Ev.poll (TouchInput.present p.1 p.2))
          ++ [Ev.poll TouchInput.absent]) = some s2
        ∧ s2.buttonPressed = -1 ∧ s2.touchedButton = -1 ∧ s2.touchedSlider = -1
        ∧ s2.sliders = s.sliders := by
  rcases xs with _ | ⟨a, _ | ⟨b, _ | ⟨c, t⟩⟩⟩
  · have hrun : run s [Ev.poll TouchInput.absent]
        = some { s with touchTimer := 0, touchX := -1, touchY := -1 } := by
      simp [run, stepM, h0]
    exact ⟨_, hrun, hb, ht, hsl, rfl⟩
  · have hrun : run s [Ev.poll (TouchInput.present a.1 a.2), Ev.poll TouchInput.absent]
        = some { s with touchTimer := 0, touchX := -1, touchY := -1 } := by
      simp [run, stepM, HandleTouchDown, HandleTouchUp, h0]
    exact ⟨_, hrun, hb, ht, hsl, rfl⟩
  · have hrun : run s [Ev.poll (TouchInput.present a.1 a.2),
          Ev.poll (TouchInput.present b.1 b.2), Ev.poll TouchInput.absent]
        = some { s with touchTimer := 0, touchX := -1, touchY := -1 } := by
      simp [run, stepM, HandleTouchDown, HandleTouchUp, h0]
    exact ⟨_, hrun, hb, ht, hsl, rfl⟩
  · simp only [List.length_cons] at hlen
    omega

/-- Witness for the C4 theorem: the power-on state, a single
touch-present poll at raw coordinates (140, 40) — inside the Walk
button — followed by a release: nothing is committed, armed or dragged. -/
theorem short_touch_session_noop_witness :
    ([((140 : Int), (40 : Int))].length < 3 ∧ initSt.touchTimer = 0
        ∧ initSt.buttonPressed = -1 ∧ initSt.touchedButton = -1
        ∧ initSt.touchedSlider = -1)
      ∧ ∃ s2, run initSt (([((140 : Int), (40 : Int))].map
            fun p => Ev.poll (TouchInput.present p.1 p.2))
            ++ [Ev.poll TouchInput.absent]) = some s2
          ∧ s2.buttonPressed = -1 ∧ s2.touchedButton = -1 ∧ s2.touchedSlider = -1
          ∧ s2.sliders = initSt.sliders :=
  ⟨⟨by decide, rfl, rfl, rfl, rfl⟩,
    short_touch_session_noop initSt [(140, 40)] (by decide) rfl rfl rfl rfl⟩

/-- C6 counterexample: for the program's sliders (never initialised, so
width 0 at position 0) a drag at the only in-region touch column
touchX = 0 commits the value 0, while the claimed idealized formula
100·(touchX − (x − usableWidth/2))/usableWidth with truncating signed
division, clamped, yields 50: the C expression is evaluated in unsigned
16-bit arithmetic (the U16 field promotes the whole expression), so
100·(−8 mod 2^16) mod 2^16 = 64736 divided by 65520 gives 0, not
(−800)/(−16) = 50. -/
theorem dragSlider_not_idealized_formula :
    SliderTouched 0 5 (initSliders 0) = true
      ∧ (dragSlider 0 (initSliders 0)).value = 0
      ∧ sliderValueFromDragSpec 0 (initSliders 0) = 50
      ∧ (dragSlider 0 (initSliders 0)).value ≠ sliderValueFromDragSpec 0 (initSliders 0) := by
  refine ⟨?_, ?_, ?_, ?_⟩ <;> decide

theorem drag_calc_width0 (a t : Int) (h : t % 65536 = a % 65536) :
    toS8 (u16 (100 * u16 (t - u16 (a - Int.tdiv (toS16 (u16 ((0:Int) - 16))) 2)))
        / u16 ((0:Int) - 16)) = 0 := by
  have e1 : Int.tdiv (toS16 (u16 ((0:Int) - 16))) 2 = -8 := by decide
  rw [e1]
  have e2 : u16 (t - u16 (a - (-8 : Int))) = 65528 := by
    simp only [u16]
    omega
  rw [e2]
  decide

/-- C6 amended: during a drag in which the armed slider's hit-test passes,
the value is computed from the touch x in unsigned 16-bit arithmetic and
reduced to a signed 8-bit value before the clamp, not by the idealized
signed formula; for the program's sliders (width 0) every such drag
commits the value 0, which lies within the guaranteed range [0, 100]. -/
theorem dragSlider_zero_width_value (tx ty : Int) (sl : Slider)
    (hw : sl.width = 0) (hh : SliderTouched tx ty sl = true) :
    (dragSlider tx sl).value = 0 ∧ 0 ≤ (dragSlider tx sl).value
      ∧ (dragSlider tx sl).value ≤ 100 := by
  have hmod : tx % 65536 = sl.x % 65536 := by
    simp only [SliderTouched, hw, Bool.and_eq_true, decide_eq_true_eq, u16] at hh
    omega
  have hv : (dragSlider tx sl).value = 0 := by
    simp only [dragSlider]
    rw [hw, drag_calc_width0 sl.x tx hmod]
    norm_num
  exact ⟨hv, by rw [hv], by rw [hv]; norm_num⟩

/-- Witness for the amended C6 theorem: the first slider of the program at
touch position (0, 5), where its hit-test passes; the committed value is 0. -/
theorem dragSlider_zero_width_value_witness :
    ((initSliders 0).width = 0 ∧ SliderTouched 0 5 (initSliders 0) = true)
      ∧ ((dragSlider 0 (initSliders 0)).value = 0
          ∧ 0 ≤ (dragSlider 0 (initSliders 0)).value
          ∧ (dragSlider 0 (initSliders 0)).value ≤ 100) :=
  ⟨⟨rfl, by decide⟩, dragSlider_zero_width_value 0 5 (initSliders 0) rfl (by decide)⟩

theorem sliderShape_init : SliderShape initSt :=
  fun _ => ⟨rfl, rfl, rfl, rfl⟩

theorem dragUpdate_geometry (tx ty tS : Int) (ss : Fin 2 → Slider) (m : Fin 2) :
    (dragUpdate tx ty tS ss m).x = (ss m).x ∧ (dragUpdate tx ty tS ss m).y = (ss m).y
      ∧ (dragUpdate tx ty tS ss m).width = (ss m).width
      ∧ (dragUpdate tx ty tS ss m).page = (ss m).page := by
  simp only [dragUpdate]
  split
  · exact ⟨rfl, rfl, rfl, rfl⟩
  · exact ⟨rfl, rfl, rfl, rfl⟩

theorem renderSlidersPass_geometry (ss : Fin 2 → Slider) (m : Fin 2) :
    (renderSlidersPass ss m).x = (ss m).x ∧ (renderSlidersPass ss m).y = (ss m).y
      ∧ (renderSlidersPass ss m).width = (ss m).width
      ∧ (renderSlidersPass ss m).page = (ss m).page := by
  simp only [renderSlidersPass]
  split
  · exact ⟨rfl, rfl, rfl, rfl⟩
  · exact ⟨rfl, rfl, rfl, rfl⟩

theorem handleTouchDown_shape (rx ry : Int) (s : St) (hs : SliderShape s) :
    SliderShape (HandleTouchDown rx ry s) := by
  intro n
  obtain ⟨g1, g2, g3, g4⟩ := hs n
  simp only [HandleTouchDown]
  split
  · exact ⟨g1, g2, g3, g4⟩
  · split
    · obtain ⟨e1, e2, e3, e4⟩ := dragUpdate_geometry (toS16 (u16 rx)) (toS16 (u16 ry))
        s.touchedSlider s.sliders n
      exact ⟨e1.trans g1, e2.trans g2, e3.trans g3, e4.trans g4⟩
    · exact ⟨g1, g2, g3, g4⟩

theorem handleTouchUp_sliders (s s1 : St) (h : HandleTouchUp s = some s1) :
    s1.sliders = s.sliders := by
  simp only [HandleTouchUp] at h
  split at h
  · injection h with h2
    rw [← h2]
  · rcases hb : buttonAt s.buttons s.touchedButton with _ | b
    · rw [hb] at h
      simp at h
    · rw [hb] at h
      injection h with h2
      rw [← h2]
      split <;> rfl

theorem sliderShape_step (e : Ev) (s s2 : St) (h : stepM e s = some s2)
    (hs : SliderShape s) : SliderShape s2 := by
  cases e with
  | tick0 =>
    simp only [stepM] at h
    injection h with h2
    rw [← h2]
    exact fun n => hs n
  | poll inp =>
    cases inp with
    | present rawX rawY =>
      simp only [stepM] at h
      injection h with h2
      rw [← h2]
      exact handleTouchDown_shape rawX rawY _ (fun n => hs n)
    | absent =>
      simp only [stepM] at h
      rcases hif : (if 0 < s.touchTimer then HandleTouchUp s else some s) with _ | s1
      · rw [hif] at h
        simp at h
      · rw [hif] at h
        injection h with h2
        rw [← h2]
        have hsl : s1.sliders = s.sliders := by
          split at hif
          · exact handleTouchUp_sliders s s1 hif
          · injection hif with h3
            rw [← h3]
        intro n
        show (s1.sliders n).x = 0 ∧ (s1.sliders n).y = 0 ∧ (s1.sliders n).width = 0
          ∧ (s1.sliders n).page = 0
        rw [hsl]
        exact hs n
  | mainPass pin =>
    simp only [stepM, mainPass] at h
    rcases hd : mainDispatch s.buttonPressed s.controlBits s.buttons with _ | r
    · rw [hd] at h
      simp at h
    · obtain ⟨cb2, bs2, out⟩ := r
      rw [hd] at h
      injection h with h2
      rw [← h2]
      intro n
      obtain ⟨g1, g2, g3, g4⟩ := hs n
      cases hu : pin.uart with
      | none =>
        obtain ⟨e1, e2, e3, e4⟩ := renderSlidersPass_geometry s.sliders n
        exact ⟨e1.trans g1, e2.trans g2, e3.trans g3, e4.trans g4⟩
      | some b =>
        obtain ⟨e1, e2, e3, e4⟩ := renderSlidersPass_geometry s.sliders n
        exact ⟨e1.trans g1, e2.trans g2, e3.trans g3, e4.trans g4⟩

theorem reach_sliderShape (s : St) (h : Reach s) : SliderShape s := by
  induction h with
  | init => exact sliderShape_init
  | step e _ hstep ih => exact sliderShape_step e _ _ hstep ih

theorem sliderTouched_degenerate (tx ty : Int) (sl : Slider)
    (hx : sl.x = 0) (hy : sl.y = 0) (hw : sl.width = 0) (hp : sl.page = 0)
    (htx1 : -32768 ≤ tx) (htx2 : tx ≤ 32767)
    (hty1 : -32768 ≤ ty) (hty2 : ty ≤ 32767) :
    SliderTouched tx ty sl = true ↔ (tx = 0 ∧ 0 ≤ ty ∧ ty ≤ 32) := by
  simp only [SliderTouched, hx, hy, hw, hp, Bool.and_eq_true, decide_eq_true_eq,
    u16, currentPage]
  norm_num
  omega

/-- C9: `InitialiseSlider` is never called, so after `main`'s
initialisation every slider has x, y, width, colour, value, oldValue and
page all zero; the width (and the rest of the geometry) stays 0 in every
reachable state; consequently a slider's hit region degenerates to the
single touch column touchX = 0 with touchY in [0, 32] (every touch
coordinate the firmware can hold is a 16-bit int, whence the range
hypotheses). -/
theorem sliders_never_initialised (s : St) (h : Reach s) (n : Fin 2)
    (tx ty : Int) (htx1 : -32768 ≤ tx) (htx2 : tx ≤ 32767)
    (hty1 : -32768 ≤ ty) (hty2 : ty ≤ 32767) :
    initSt.sliders n = ⟨0, 0, 0, 0, 0, 0, 0⟩
      ∧ (s.sliders n).width = 0
      ∧ (SliderTouched tx ty (s.sliders n) = true ↔ (tx = 0 ∧ 0 ≤ ty ∧ ty ≤ 32)) := by
  obtain ⟨hx, hy, hw, hp⟩ := reach_sliderShape s h n
  exact ⟨rfl, hw, sliderTouched_degenerate tx ty _ hx hy hw hp htx1 htx2 hty1 hty2⟩

/-- Witness for the C9 theorem at the power-on state, slider 0 and touch
position (0, 5). -/
theorem sliders_never_initialised_witness :
    (Reach initSt ∧ -32768 ≤ (0 : Int) ∧ (0 : Int) ≤ 32767
        ∧ -32768 ≤ (5 : Int) ∧ (5 : Int) ≤ 32767)
      ∧ (initSt.sliders 0 = ⟨0, 0, 0, 0, 0, 0, 0⟩
          ∧ (initSt.sliders 0).width = 0
          ∧ (SliderTouched 0 5 (initSt.sliders 0) = true
              ↔ ((0 : Int) = 0 ∧ (0 : Int) ≤ 5 ∧ (5 : Int) ≤ 32))) :=
  ⟨⟨Reach.init, by omega, by omega, by omega, by omega⟩,
    sliders_never_initialised initSt Reach.init 0 0 5 (by omega) (by omega)
      (by omega) (by omega)⟩
